import Mathlib

/-!
Verification development for the email-to-task extraction and duplicate-safe
task-creation pipeline of the AI-Agents-Swarm repository.

The definitions below are a shallow embedding of the relevant Python source:
  agents/core/__init__.py              (Task data model, classifier output schema)
  agents/email_polling/__init__.py     (EmailAgent: fetch, filter, classify, build)
  agents/notion_integration/__init__.py (NotionAgent: dedup check, create, batch)
  agents/main.py                       (AgentOrchestrator: pipeline, marking)

External collaborators (the IMAP transport, the language model, the Notion
client, the date parsers, the fuzzy string library) are modelled as explicit
function parameters gathered in an `Env` structure; machine floats are
modelled as rationals; timestamps as natural numbers.
-/

set_option maxRecDepth 4000

namespace AgentsSwarm

/-- Priority levels of a task, mirroring `TaskPriority` in `agents/core`. -/
inductive TaskPriority
  | low
  | medium
  | high
  | urgent
deriving DecidableEq, Repr

/-- Status values of a task, mirroring `TaskStatus` in `agents/core`. -/
inductive TaskStatus
  | todo
  | in_progress
  | done
  | cancelled
deriving DecidableEq, Repr

/-- Metadata values stored in the open key-value map of a `Task`
(Python dict values: strings, floats, timestamps). -/
inductive MetaVal
  | str (s : String)
  | rat (q : ℚ)
  | nat (n : Nat)
deriving DecidableEq, Repr

/-- The canonical task record, mirroring `Task` in `agents/core`.
Timestamps are modelled as natural numbers. -/
structure Task where
  title : String
  description : String
  priority : TaskPriority
  status : TaskStatus
  source : String
  source_id : Option String
  created_at : Nat
  due_date : Option Nat
  tags : List String
  metadata : List (String × MetaVal)
deriving DecidableEq, Repr

/-- A normalized email message, mirroring the `EmailMessage` dataclass in
`agents/email_polling`. -/
structure EmailMessage where
  subject : String
  sender : String
  content : String
  date : Nat
  message_id : String
  is_unread : Bool
deriving DecidableEq, Repr

/-- Structured classifier output, mirroring `EmailTaskExtractor` in
`agents/core` (the ClassificationVerdict of the spec). Confidence is a
rational in [0,1]; `due_date` is an optional free-form string. -/
structure EmailTaskExtractor where
  is_task : Bool
  title : String
  description : String
  priority : TaskPriority
  due_date : Option String
  tags : List String
  confidence : ℚ
deriving DecidableEq, Repr

/-- A destination-store record as seen by the duplicate check: the title
property (absent or empty title lists are modelled as `none`, such records
are skipped by `_task_exists`) and the description rich-text content when
present. -/
structure StoreRecord where
  title : Option String
  description : Option String
deriving DecidableEq, Repr

/-- Decides whether `pat` occurs at the head of `hay`. -/
def list_starts_with : List Char → List Char → Bool
  | _, [] => true
  | [], _ :: _ => false
  | a :: as, b :: bs => a = b && list_starts_with as bs

/-- Decides whether `pat` occurs as a contiguous sublist of `hay`; models the
Python `pat in hay` substring test. -/
def list_contains_sub : List Char → List Char → Bool
  | [], pat => pat.isEmpty
  | h :: t, pat => list_starts_with (h :: t) pat || list_contains_sub t pat

/-- String-level substring test, models Python `pat in hay`. -/
def str_contains (hay pat : String) : Bool :=
  list_contains_sub hay.toList pat.toList

/-- Character-wise lowercasing; models the Python `str.lower()` calls of
the source (whose inputs here are header and pattern text). -/
def py_lower (s : String) : String :=
  String.mk (s.data.map Char.toLower)

/-- Fuel-driven recursion computing the Levenshtein indel distance
(insertions and deletions, no substitutions), the distance underlying the
`fuzz.ratio` similarity of the fuzzywuzzy library used by `_task_exists`.
With fuel at least the sum of the two lengths the fuel never runs out,
since every recursive call removes at least one character. -/
def lev_indel_go : Nat → List Char → List Char → Nat
  | _, [], ys => ys.length
  | _, x :: xs, [] => (x :: xs).length
  | 0, xs, ys => xs.length + ys.length
  | f + 1, x :: xs, y :: ys =>
    if x = y then lev_indel_go f xs ys
    else 1 + min (lev_indel_go f xs (y :: ys)) (lev_indel_go f (x :: xs) ys)

/-- Levenshtein indel distance of two character lists. -/
def lev_indel (xs ys : List Char) : Nat :=
  lev_indel_go (xs.length + ys.length) xs ys

/-- Integer similarity percentage of two strings; models `fuzz.ratio` from
the fuzzywuzzy library (collaborator): 100 times the normalized indel
similarity, rounded to the nearest integer. -/
def fuzz_ratio_score (a b : String) : Nat :=
  let la := a.toList
  let lb := b.toList
  let lensum := la.length + lb.length
  if lensum = 0 then 100
  else (200 * (lensum - lev_indel la lb) + lensum) / (2 * lensum)

/-- Environment of external collaborators consumed by the core, per the
interface boundary of the spec: the classification model call
(`get_task_extractor().run`, with error values modelling raised exceptions),
the two date parsers (`datetime.strptime` with format `%Y-%m-%d`, and
`dateutil.parser.parse`, returning `none` where the library raises), the
destination-store query of the most recent records (page size passed
explicitly, error values modelling raised exceptions), the destination-store
page creation (`none` models a raised `APIResponseError` or other exception,
which the source catches and turns into a `None` result), and the current
clock value. -/
structure Env where
  classify : String → Except String EmailTaskExtractor
  strptime_iso : String → Option Nat
  dateutil_parse : String → Option Nat
  query_recent : Nat → List StoreRecord → Except String (List StoreRecord)
  create_page : List StoreRecord → Task → Option String
  now : Nat

/-- Sender patterns of `_is_automated_email` (`automated_senders`,
agents/email_polling lines 277 to 283). -/
def automated_senders : List String :=
  ["noreply@", "no-reply@", "donotreply@", "do-not-reply@",
   "security@", "alerts@", "notifications@", "system@",
   "admin@", "support@", "help@", "info@", "news@",
   "updates@", "marketing@", "promo@", "newsletter@",
   "accounts@", "billing@", "payments@", "services@"]

/-- Subject patterns of `_is_automated_email` (`automated_subjects`,
agents/email_polling lines 290 to 299). -/
def automated_subjects : List String :=
  ["security alert", "security warning", "account alert",
   "password reset", "login attempt", "suspicious activity",
   "verify your account", "confirmation required", "activate your",
   "welcome to", "thank you for", "subscription", "newsletter",
   "unsubscribe", "promotion", "offer", "deal", "sale",
   "invoice", "receipt", "payment", "billing", "statement",
   "notification", "reminder", "alert", "update available",
   "system maintenance", "service update", "terms of service"]

/-- Body patterns of `_is_automated_email` (`automated_content`,
agents/email_polling lines 305 to 312). -/
def automated_content : List String :=
  ["this is an automated message", "do not reply to this email",
   "this email was sent automatically", "unsubscribe",
   "click here to verify", "activate your account",
   "for security reasons", "suspicious activity detected",
   "please verify your identity", "account security"]

/-- Embedding of `EmailAgent._is_automated_email`
(agents/email_polling lines 265 to 317): case-insensitive substring
matching of the sender, then the subject, then the body against the three
pattern lists, returning true on the first hit. -/
def _is_automated_email (msg : EmailMessage) : Bool :=
  let sender_lower := py_lower msg.sender
  if automated_senders.any (fun p => str_contains sender_lower p) then true
  else
    let subject_lower := py_lower msg.subject
    if automated_subjects.any (fun p => str_contains subject_lower p) then true
    else
      let content_lower := py_lower msg.content
      if automated_content.any (fun p => str_contains content_lower p) then true
      else false

/-- Spec-side reading of the first signal set: some sender pattern occurs in
the lowercased sender. -/
def sender_flagged (msg : EmailMessage) : Bool :=
  automated_senders.any (fun p => str_contains (py_lower msg.sender) p)

/-- Spec-side reading of the second signal set: some subject pattern occurs
in the lowercased subject. -/
def subject_flagged (msg : EmailMessage) : Bool :=
  automated_subjects.any (fun p => str_contains (py_lower msg.subject) p)

/-- Spec-side reading of the third signal set: some body pattern occurs in
the lowercased body. -/
def content_flagged (msg : EmailMessage) : Bool :=
  automated_content.any (fun p => str_contains (py_lower msg.content) p)

/-- The full prompt text handed to the classifier
(agents/email_polling line 341). -/
def full_text (msg : EmailMessage) : String :=
  "Subject: " ++ msg.subject ++ "\n\nSender: " ++ msg.sender ++
    "\n\nContent:\n" ++ msg.content

/-- Embedding of the due-date parsing ladder inside
`EmailAgent.extract_tasks_from_email` (agents/email_polling lines 352 to
365): nothing is parsed when the verdict carries no due date or an empty
one (Python falsiness of `extracted.due_date`); otherwise the ISO format
`%Y-%m-%d` is tried first, then `dateutil` natural-language parsing; both
failing leaves the due date unset. -/
def parse_due_date (env : Env) (due : Option String) : Option Nat :=
  match due with
  | none => none
  | some s =>
    if s = "" then none
    else
      match env.strptime_iso s with
      | some d => some d
      | none => env.dateutil_parse s

/-- Embedding of the Task construction inside
`EmailAgent.extract_tasks_from_email` (agents/email_polling lines 351 to
388): due-date parsing, the metadata map, the `raw_due_date` fallback entry
appended when a present due-date string failed to parse, and the `Task`
record itself. -/
def build_task (env : Env) (msg : EmailMessage) (extracted : EmailTaskExtractor) : Task :=
  let due_date := parse_due_date env extracted.due_date
  let metadata : List (String × MetaVal) :=
    [("sender", .str msg.sender),
     ("subject", .str msg.subject),
     ("confidence", .rat extracted.confidence),
     ("email_date", .nat msg.date),
     ("message_id", .str msg.message_id)]
  let metadata :=
    match extracted.due_date with
    | some s => if s ≠ "" ∧ due_date = none then metadata ++ [("raw_due_date", .str s)] else metadata
    | none => metadata
  { title := extracted.title
    description := extracted.description
    priority := extracted.priority
    status := .todo
    source := "email"
    source_id := some msg.message_id
    created_at := env.now
    due_date := due_date
    tags := extracted.tags
    metadata := metadata }

/-- Embedding of `EmailAgent.extract_tasks_from_email`
(agents/email_polling lines 319 to 405), instrumented with a counter of
classification-service calls (second component). The already-processed
check and the automation pre-filter return before any model call; a
classifier error (the `except` at line 402, which catches the raised
exception) yields no task; a verdict yields a task exactly when `is_task`
holds and the confidence clears the hard threshold 0.8 applied here, in
the pipeline code, whatever the classifier returned. -/
def extract_tasks_from_email_counted (env : Env) (processed : List String)
    (msg : EmailMessage) : Option Task × Nat :=
  if msg.message_id ∈ processed then (none, 0)
  else if _is_automated_email msg then (none, 0)
  else
    match env.classify (full_text msg) with
    | .error _ => (none, 1)
    | .ok extracted =>
      if extracted.is_task = true ∧ mkRat 8 10 ≤ extracted.confidence then
        (some (build_task env msg extracted), 1)
      else (none, 1)

/-- Result of `EmailAgent.extract_tasks_from_email`: the optional task. -/
def extract_tasks_from_email (env : Env) (processed : List String)
    (msg : EmailMessage) : Option Task :=
  (extract_tasks_from_email_counted env processed msg).1

/-- Embedding of `EmailAgent.fetch_new_emails`
(agents/email_polling lines 119 to 180). The inbox is the list of parsed
messages the IMAP SINCE search yields, oldest first (messages whose parse
failed are skipped by the source loop and omitted here); the ids are
reversed so the newest come first, the batch limit is applied, and
messages whose identifier is already in the processed set are dropped. -/
def fetch_new_emails (processed : List String) (inbox : List EmailMessage)
    (limit : Nat := 50) : List EmailMessage :=
  (inbox.reverse.take limit).filter (fun m => m.message_id ∉ processed)

/-- Set insertion into the processed-identifier set (Python `set.add`),
keeping the list membership-unique. -/
def add_id (processed : List String) (mid : String) : List String :=
  if mid ∈ processed then processed else mid :: processed

/-- Embedding of `EmailAgent.process_new_emails`
(agents/email_polling lines 407 to 450), instrumented with the total count
of classification-service calls. Each fetched message is run through
`extract_tasks_from_email` against the current processed set; a produced
task is accumulated and its message deliberately not marked, while a
message yielding no task has its identifier added to the processed set.
The source except-branch at lines 441 to 444 is unreachable because
`extract_tasks_from_email` catches every exception internally. -/
def process_new_emails_counted (env : Env) (processed : List String)
    (inbox : List EmailMessage) (limit : Nat := 50) :
    List Task × List String × Nat :=
  let new_emails := fetch_new_emails processed inbox limit
  new_emails.foldl
    (fun acc msg =>
      let r := extract_tasks_from_email_counted env acc.2.1 msg
      match r.1 with
      | some t => (acc.1 ++ [t], acc.2.1, acc.2.2 + r.2)
      | none => (acc.1, add_id acc.2.1 msg.message_id, acc.2.2 + r.2))
    ([], processed, 0)

/-- Result of `EmailAgent.process_new_emails`: the extracted tasks together
with the updated processed set. -/
def process_new_emails (env : Env) (processed : List String)
    (inbox : List EmailMessage) (limit : Nat := 50) : List Task × List String :=
  let r := process_new_emails_counted env processed inbox limit
  (r.1, r.2.1)

/-- Raw transport-level message as handed to `EmailAgent._parse_email`: the
fetch status and the optional header values (`email_message.get` returns the
empty-string default when a header is absent). The body is the already
extracted plain text. -/
structure RawEmail where
  fetch_ok : Bool
  subject : Option String
  sender : Option String
  date_header : Option String
  message_id_header : Option String
  body : String
deriving DecidableEq, Repr

/-- Embedding of `EmailAgent._parse_email`
(agents/email_polling lines 182 to 233). Fetch failures yield no message;
otherwise the headers are read with empty-string defaults, the date header
is parsed with `email.utils.parsedate_to_datetime` (collaborator parameter
`parsedate`, `none` where the library raises) falling back to the current
time, and the identifier is the Message-ID header value. Header decoding
(`_decode_header`) is modelled as the identity on the already decoded
text. -/
def _parse_email (parsedate : String → Option Nat) (now : Nat)
    (raw : RawEmail) : Option EmailMessage :=
  if raw.fetch_ok = false then none
  else
    some
      { subject := raw.subject.getD ""
        sender := raw.sender.getD ""
        content := raw.body
        date := (parsedate (raw.date_header.getD "")).getD now
        message_id := raw.message_id_header.getD ""
        is_unread := true }

/-- Per-record similarity test of `NotionAgent._task_exists`
(agents/notion_integration lines 99 to 125): records without a title are
skipped; the candidate title and the existing title are compared
case-insensitively with `fuzz.ratio`; when the candidate has a non-empty
description (Python truthiness) and the record carries description text,
the descriptions are compared the same way; the maximum of the two ratios
is compared against the similarity threshold, inclusively. -/
def record_similar (similarity_threshold : Nat) (task : Task)
    (r : StoreRecord) : Bool :=
  match r.title with
  | none => false
  | some existing_title =>
    let title_similarity := fuzz_ratio_score (py_lower task.title) (py_lower existing_title)
    let description_similarity :=
      if task.description = "" then 0
      else
        match r.description with
        | some existing_desc =>
          fuzz_ratio_score (py_lower task.description) (py_lower existing_desc)
        | none => 0
    decide (similarity_threshold ≤ max title_similarity description_similarity)

/-- Embedding of `NotionAgent._task_exists`
(agents/notion_integration lines 69 to 133): the destination store is
queried for its 20 most recent records; any exception from the query is
caught and the check returns false (lines 130 to 133); otherwise the
check succeeds exactly when some returned record is similar enough. -/
def _task_exists (env : Env) (store : List StoreRecord) (task : Task)
    (similarity_threshold : Nat := 85) : Bool :=
  match env.query_recent 20 store with
  | .error _ => false
  | .ok results => results.any (record_similar similarity_threshold task)

/-- Embedding of `NotionAgent.create_task_in_notion`
(agents/notion_integration lines 135 to 295). The store is a list of
records, newest first. A detected duplicate skips creation and returns
`none`; otherwise the collaborator page creation runs, a raised
`APIResponseError` or other exception being caught and returned as `none`
(lines 289 to 295); a successful creation returns the page id and the new
record, carrying the task title and description properties, enters the
store. -/
def create_task_in_notion (env : Env) (store : List StoreRecord)
    (task : Task) : Option String × List StoreRecord :=
  if _task_exists env store task then (none, store)
  else
    match env.create_page store task with
    | some page_id => (some page_id, ⟨some task.title, some task.description⟩ :: store)
    | none => (none, store)

/-- Observable events of a batch commit: a creation attempt for a given
task title, and the fixed `asyncio.sleep(0.1)` rate-limit delay, recorded
in milliseconds. -/
inductive Event
  | attemptCreate (title : String)
  | sleepMs (n : Nat)
deriving DecidableEq, Repr

/-- Outcome of `NotionAgent.batch_create_tasks`: the per-task results in
input order, the final store, and the trace of creation attempts and
delays. -/
structure BatchResult where
  page_ids : List (Option String)
  store : List StoreRecord
  trace : List Event
deriving DecidableEq, Repr

/-- Embedding of `NotionAgent.batch_create_tasks`
(agents/notion_integration lines 326 to 361): the tasks are submitted one
after the other, each result is appended in order (`None` for a duplicate
or a creation error), and each attempt is followed by the fixed 0.1 second
delay. The except-branch at lines 354 to 356 records `None` for an
exception escaping a single creation; it is unreachable here because
`create_task_in_notion` catches every exception internally. -/
def batch_create_tasks (env : Env) (store : List StoreRecord) :
    List Task → BatchResult
  | [] => ⟨[], store, []⟩
  | t :: ts =>
    let c := create_task_in_notion env store t
    let rest := batch_create_tasks env c.2 ts
    ⟨c.1 :: rest.page_ids, rest.store,
      .attemptCreate t.title :: .sleepMs 100 :: rest.trace⟩

/-- Required destination-database properties and their types, from
`NotionAgent.validate_database_setup`
(agents/notion_integration lines 423 to 428). -/
def required_properties : List (String × String) :=
  [("Task name", "title"), ("Status", "status"),
   ("Priority", "select"), ("Description", "rich_text")]

/-- Embedding of `NotionAgent.validate_database_setup`
(agents/notion_integration lines 412 to 444): the schema, a map from
property names to type names, must contain every required property with
the required type; a missing property or a wrong type fails the
validation. -/
def validate_database_setup (schema : List (String × String)) : Bool :=
  required_properties.all (fun p =>
    match schema.lookup p.1 with
    | none => false
    | some t => t = p.2)

/-- Embedding of the schema-validation gate in `AgentOrchestrator.__init__`
(agents/main lines 69 to 77): a failed validation raises `ValueError` and
construction of the orchestrator fails, so no run can start. A schema
retrieval error is caught by `get_database_schema` and surfaces as the
empty schema (agents/notion_integration lines 408 to 410). -/
def orchestrator_init_check (schema_result : Except String (List (String × String))) :
    Except String Unit :=
  let schema :=
    match schema_result with
    | .error _ => []
    | .ok s => s
  if validate_database_setup schema then .ok ()
  else .error "Notion database is not properly configured"

/-- Embedding of the marking loop in
`AgentOrchestrator.process_email_to_notion_pipeline`
(agents/main lines 225 to 235): walking the tasks zipped with their commit
results, exactly the source identifiers of tasks committed with a non-null
page id are inserted into the processed set. -/
def mark_processed (processed : List String)
    (pairs : List (Task × Option String)) : List String :=
  pairs.foldl
    (fun acc p =>
      match p.2, p.1.source_id with
      | some _, some sid => add_id acc sid
      | _, _ => acc)
    processed

/-- Persistent system state across pipeline runs: the processed-identifier
set and the destination store, newest record first. -/
structure SysState where
  processed : List String
  store : List StoreRecord
deriving DecidableEq, Repr

/-- Embedding of `AgentOrchestrator.process_email_to_notion_pipeline`
(agents/main lines 189 to 265), instrumented with the total count of
classification-service calls: extraction updates the processed set with
the no-task messages, an empty task list ends the run, and otherwise the
batch commit runs and exactly the messages whose task was committed with a
non-null result are additionally marked processed. -/
def process_email_to_notion_pipeline_counted (env : Env) (st : SysState)
    (inbox : List EmailMessage) (limit : Nat := 50) : SysState × Nat :=
  let r := process_new_emails_counted env st.processed inbox limit
  let new_tasks := r.1
  let processed₁ := r.2.1
  if new_tasks = [] then ({ st with processed := processed₁ }, r.2.2)
  else
    let b := batch_create_tasks env st.store new_tasks
    let processed₂ := mark_processed processed₁ (new_tasks.zip b.page_ids)
    ({ processed := processed₂, store := b.store }, r.2.2)

/-- Result of one pipeline run: the updated system state. -/
def process_email_to_notion_pipeline (env : Env) (st : SysState)
    (inbox : List EmailMessage) (limit : Nat := 50) : SysState :=
  (process_email_to_notion_pipeline_counted env st inbox limit).1

/-! Concrete fixtures used to evaluate the embedded code on explicit
inputs. -/

/-- A plain human-to-human message that passes the automation filter. -/
def msg_w : EmailMessage :=
  { subject := "aa", sender := "alice@x.com", content := "", date := 0,
    message_id := "mid1", is_unread := true }

/-- A message from an automated sender address. -/
def msg_auto : EmailMessage :=
  { subject := "hi", sender := "noreply@shop.com", content := "", date := 0,
    message_id := "mid-auto", is_unread := true }

/-- The same automated message with different letter case in every text
field. -/
def msg_auto_upper : EmailMessage :=
  { subject := "Hi", sender := "NoReply@Shop.com", content := "", date := 0,
    message_id := "mid-auto", is_unread := true }

/-- Verdict at confidence 0.79, just below the acceptance threshold. -/
def v79 : EmailTaskExtractor :=
  { is_task := true, title := "t", description := "", priority := .medium,
    due_date := none, tags := [], confidence := mkRat 79 100 }

/-- Verdict at confidence 0.80, exactly at the acceptance threshold. -/
def v80 : EmailTaskExtractor :=
  { is_task := true, title := "t", description := "", priority := .medium,
    due_date := none, tags := [], confidence := mkRat 80 100 }

/-- Verdict carrying the natural-language due date string. -/
def v_friday : EmailTaskExtractor :=
  { is_task := true, title := "t", description := "", priority := .medium,
    due_date := some "next Friday", tags := [], confidence := mkRat 9 10 }

/-- Verdict describing a task whose title already sits in the destination
store up to letter case. -/
def v_dup : EmailTaskExtractor :=
  { is_task := true, title := "Budget Review", description := "",
    priority := .medium, due_date := none, tags := [], confidence := mkRat 9 10 }

/-- Verdict for a message that is not a task. -/
def v_none : EmailTaskExtractor :=
  { is_task := false, title := "", description := "", priority := .medium,
    due_date := none, tags := [], confidence := mkRat 0 1 }

/-- Environment whose classifier always answers with the fixed verdict
`v79` and whose date parsers always fail. -/
def env79 : Env :=
  { classify := fun _ => .ok v79, strptime_iso := fun _ => none,
    dateutil_parse := fun _ => none,
    query_recent := fun n s => .ok (s.take n),
    create_page := fun _ _ => some "pid", now := 0 }

/-- Environment whose classifier always answers with the fixed verdict
`v80`. -/
def env80 : Env :=
  { env79 with classify := fun _ => .ok v80 }

/-- Environment whose classification call always raises and whose date
parsers always fail. -/
def env_nf : Env :=
  { env79 with classify := fun _ => .error "ClassificationError" }

/-- Environment whose classifier answers with the duplicate-title verdict
`v_dup`. -/
def env_dup : Env :=
  { env79 with classify := fun _ => .ok v_dup }

/-- Destination-store record whose title equals the `v_dup` task title up
to letter case. -/
def rec_dup : StoreRecord := ⟨some "budget review", some "notes"⟩

/-- Message whose extraction yields the duplicate task. -/
def msg_dup : EmailMessage :=
  { subject := "aa", sender := "alice@x.com", content := "", date := 0,
    message_id := "mid-dup", is_unread := true }

/-- Environment whose classification call raises exactly on the message
whose prompt text contains the marker `boom3`, and classifies every other
message as not a task. -/
def env_err : Env :=
  { env79 with
    classify := fun s =>
      if str_contains s "boom3" then .error "ClassificationError"
      else .ok v_none }

/-- Batch of five messages; the third one makes the classification call
raise. -/
def inbox_err : List EmailMessage :=
  [{ subject := "s1", sender := "alice@x.com", content := "", date := 0,
     message_id := "id1", is_unread := true },
   { subject := "s2", sender := "alice@x.com", content := "", date := 0,
     message_id := "id2", is_unread := true },
   { subject := "boom3", sender := "alice@x.com", content := "", date := 0,
     message_id := "id3", is_unread := true },
   { subject := "s4", sender := "alice@x.com", content := "", date := 0,
     message_id := "id4", is_unread := true },
   { subject := "s5", sender := "alice@x.com", content := "", date := 0,
     message_id := "id5", is_unread := true }]

/-- Verdict with title `aa`. -/
def v_a : EmailTaskExtractor :=
  { is_task := true, title := "aa", description := "", priority := .medium,
    due_date := none, tags := [], confidence := mkRat 9 10 }

/-- Verdict with title `bb`. -/
def v_b : EmailTaskExtractor :=
  { is_task := true, title := "bb", description := "", priority := .medium,
    due_date := none, tags := [], confidence := mkRat 9 10 }

/-- Message classified as the `aa` task. -/
def m_a : EmailMessage :=
  { subject := "aa", sender := "alice@x.com", content := "", date := 0,
    message_id := "idA", is_unread := true }

/-- Message classified as the `bb` task. -/
def m_b : EmailMessage :=
  { subject := "bb", sender := "bob@x.com", content := "", date := 0,
    message_id := "idB", is_unread := true }

/-- Two-message inbox, oldest first. -/
def inbox_two : List EmailMessage := [m_a, m_b]

/-- Environment for the run-twice scenario: the classifier distinguishes
the two messages by their prompt text, and the destination-store creation
fails for the `bb` task until an `aa` record exists in the store, a
transient creation error. -/
def env_two : Env :=
  { classify := fun s => if str_contains s "aa" then .ok v_a else .ok v_b,
    strptime_iso := fun _ => none, dateutil_parse := fun _ => none,
    query_recent := fun n s => .ok (s.take n),
    create_page := fun store task =>
      if task.title == "bb" && store.all (fun r => r.title != some "aa")
      then none else some "pid",
    now := 0 }

/-- A task that the batch-committer fixture environment creates. -/
def task_ok : Task :=
  { title := "okA", description := "", priority := .medium, status := .todo,
    source := "email", source_id := some "w1", created_at := 0,
    due_date := none, tags := [], metadata := [] }

/-- A task whose creation the batch-committer fixture environment rejects. -/
def task_fail : Task :=
  { title := "fail", description := "", priority := .medium, status := .todo,
    source := "email", source_id := some "w2", created_at := 0,
    due_date := none, tags := [], metadata := [] }

/-- Environment whose destination-store creation raises exactly on the task
titled `fail`. -/
def env_batch : Env :=
  { env79 with
    create_page := fun _ t => if t.title == "fail" then none else some "pid" }

/-- Environment whose destination-store query always raises. -/
def env_qerr : Env :=
  { env79 with
    query_recent := fun _ _ => .error "APIResponseError",
    create_page := fun _ _ => some "p10" }

/-- Raw message carrying a Message-ID header. -/
def raw_ok : RawEmail :=
  { fetch_ok := true, subject := some "s", sender := some "a@b",
    date_header := none, message_id_header := some "mid-8", body := "body" }

/-- Raw message without a Message-ID header. -/
def raw_noid : RawEmail :=
  { fetch_ok := true, subject := some "x", sender := some "y@z",
    date_header := none, message_id_header := none, body := "" }

/-- Expected normalization of `raw_ok` at clock value 0. -/
def msg8a : EmailMessage :=
  { subject := "s", sender := "a@b", content := "body", date := 0,
    message_id := "mid-8", is_unread := true }

/-- Expected normalization of `raw_ok` at clock value 7. -/
def msg8b : EmailMessage :=
  { subject := "s", sender := "a@b", content := "body", date := 7,
    message_id := "mid-8", is_unread := true }

/-! Theorems about the embedded pipeline. -/

/-- C3: for a message that reaches classification (unseen and not
automated), a verdict with `is_task` true yields a Task exactly when its
confidence reaches the hard threshold 0.8, inclusive on the accept side.
The verdict is universally quantified, so the threshold is enforced by
`extract_tasks_from_email` in the pipeline regardless of anything the
classifier itself computes. -/
theorem c3_threshold_boundary (env : Env) (processed : List String)
    (msg : EmailMessage) (v : EmailTaskExtractor)
    (h1 : msg.message_id ∉ processed)
    (h2 : _is_automated_email msg = false)
    (h3 : env.classify (full_text msg) = .ok v)
    (h4 : v.is_task = true) :
    (extract_tasks_from_email env processed msg).isSome = true ↔
      mkRat 8 10 ≤ v.confidence := by
  unfold extract_tasks_from_email extract_tasks_from_email_counted
  simp only [h1, h2, h3, h4, if_neg, if_false, Bool.false_eq_true, ite_false]
  by_cases hc : mkRat 8 10 ≤ v.confidence
  · simp [hc]
  · simp [hc]

/-- Witness for C3: on a concrete unseen, non-automated message, a verdict
at confidence 0.79 yields no Task while the same verdict at confidence 0.80
yields one. -/
theorem c3_witness :
    (extract_tasks_from_email env79 [] msg_w).isSome = false ∧
    (extract_tasks_from_email env80 [] msg_w).isSome = true := by
  constructor
  · have h := c3_threshold_boundary env79 [] msg_w v79 (by decide) (by decide)
      rfl rfl
    have hc : ¬ mkRat 8 10 ≤ v79.confidence := by decide
    exact Bool.eq_false_iff.mpr (fun hh => hc (h.mp hh))
  · exact (c3_threshold_boundary env80 [] msg_w v80 (by decide) (by decide)
      rfl rfl).mpr (by decide)

/-- C4: the automation filter holds exactly when one of the three signal
sets (sender patterns, subject patterns, body patterns) matches; it is
case-insensitive, in that any two messages whose lowercased fields agree
are classified identically (and it is a pure function of the message, so
deterministic); and an automated message never triggers a call to the
classification service, whatever the environment and processed set. -/
theorem c4_automation_filter (msg : EmailMessage) :
    (_is_automated_email msg =
      (sender_flagged msg || subject_flagged msg || content_flagged msg)) ∧
    (∀ m₂ : EmailMessage,
      py_lower msg.sender = py_lower m₂.sender →
      py_lower msg.subject = py_lower m₂.subject →
      py_lower msg.content = py_lower m₂.content →
      _is_automated_email msg = _is_automated_email m₂) ∧
    (∀ (env : Env) (processed : List String),
      _is_automated_email msg = true →
      (extract_tasks_from_email_counted env processed msg).2 = 0) := by
  refine ⟨?_, ?_, ?_⟩
  · unfold _is_automated_email sender_flagged subject_flagged content_flagged
    cases h1 : automated_senders.any (fun p => str_contains (py_lower msg.sender) p) <;>
      cases h2 : automated_subjects.any (fun p => str_contains (py_lower msg.subject) p) <;>
      cases h3 : automated_content.any (fun p => str_contains (py_lower msg.content) p) <;>
      simp only [h1, h2, h3] <;> simp
  · intro m₂ hs hj hc
    unfold _is_automated_email
    rw [hs, hj, hc]
  · intro env processed hauto
    unfold extract_tasks_from_email_counted
    by_cases hm : msg.message_id ∈ processed
    · simp [hm]
    · simp [hm, hauto]

/-- Witness for C4: a message from `noreply@shop.com` is flagged however
its fields are cased, and its extraction performs zero classification
calls. -/
theorem c4_witness :
    _is_automated_email msg_auto_upper = _is_automated_email msg_auto ∧
    (extract_tasks_from_email_counted env_nf [] msg_auto).2 = 0 := by
  refine ⟨(c4_automation_filter msg_auto_upper).2.1 msg_auto
      (by decide) (by decide) (by decide),
    (c4_automation_filter msg_auto).2.2 env_nf [] (by decide)⟩

/-- C7: for a verdict carrying a non-empty due-date string, the built Task
takes its due date from the ISO parser first and the natural-language
parser second; and when both parsers fail, the due date remains unset and
the raw string is preserved under the `raw_due_date` metadata key.
Building is a total function, so it never raises. -/
theorem c7_due_date_fallback (env : Env) (msg : EmailMessage)
    (extracted : EmailTaskExtractor) (s : String)
    (hd : extracted.due_date = some s) (hs : s ≠ "") :
    ((build_task env msg extracted).due_date =
      match env.strptime_iso s with
      | some d => some d
      | none => env.dateutil_parse s) ∧
    (env.strptime_iso s = none → env.dateutil_parse s = none →
      (build_task env msg extracted).due_date = none ∧
      (build_task env msg extracted).metadata.lookup "raw_due_date" =
        some (.str s)) := by
  have hps : parse_due_date env (some s) =
      (if s = "" then none
       else
         match env.strptime_iso s with
         | some d => some d
         | none => env.dateutil_parse s) := rfl
  have hp : parse_due_date env extracted.due_date =
      (match env.strptime_iso s with
       | some d => some d
       | none => env.dateutil_parse s) := by
    rw [hd, hps, if_neg hs]
  constructor
  · exact hp
  · intro h1 h2
    have hpn : parse_due_date env extracted.due_date = none := by
      rw [hp, h1]
      exact h2
    have hpn2 : parse_due_date env (some s) = none := by
      rw [← hd]
      exact hpn
    refine ⟨hpn, ?_⟩
    unfold build_task
    simp only [hd]
    simp only [hpn2, ne_eq, and_true, eq_self_iff_true, ite_not]
    rw [if_neg hs]
    simp [List.lookup]

/-- Witness for C7: a verdict with due date `next Friday` under parsers
that both fail yields a Task with no due date and the raw string kept in
the metadata. -/
theorem c7_witness :
    (build_task env_nf msg_w v_friday).due_date = none ∧
    (build_task env_nf msg_w v_friday).metadata.lookup "raw_due_date" =
      some (.str "next Friday") :=
  (c7_due_date_fallback env_nf msg_w v_friday "next Friday" rfl
    (by decide)).2 rfl rfl

/-- C9: a destination schema in which some required property (task name,
status, priority or description) is missing or carries the wrong type
fails `validate_database_setup`, and the orchestrator construction gate
refuses to start (it raises instead of permitting a run). -/
theorem c9_schema_validation (schema : List (String × String))
    (name ty : String)
    (hmem : (name, ty) ∈ required_properties)
    (hbad : schema.lookup name ≠ some ty) :
    validate_database_setup schema = false ∧
    orchestrator_init_check (.ok schema) =
      .error "Notion database is not properly configured" := by
  have hv : validate_database_setup schema = false := by
    apply Bool.eq_false_iff.mpr
    intro hall
    have hp := List.all_eq_true.mp hall (name, ty) hmem
    cases hlk : schema.lookup name with
    | none => simp [hlk] at hp
    | some t =>
      simp only [hlk, decide_eq_true_eq] at hp
      exact hbad (by rw [hlk, hp])
  refine ⟨hv, ?_⟩
  unfold orchestrator_init_check
  simp [hv]

/-- Witness for C9: a schema containing only the task-name property is
rejected and the orchestrator refuses to start. -/
theorem c9_witness :
    validate_database_setup [("Task name", "title")] = false ∧
    orchestrator_init_check (.ok [("Task name", "title")]) =
      .error "Notion database is not properly configured" :=
  c9_schema_validation [("Task name", "title")] "Status" "status"
    (by decide) (by decide)

/-- C10: when the destination-store query inside the similarity duplicate
check raises, the check returns false and creation proceeds: the outcome
of `create_task_in_notion` is exactly the outcome of the creation attempt,
so a dedup-query error can never block task creation. -/
theorem c10_dedup_fails_open (env : Env) (store : List StoreRecord)
    (task : Task) (e : String)
    (h : env.query_recent 20 store = .error e) :
    _task_exists env store task = false ∧
    (∀ pid, env.create_page store task = some pid →
      create_task_in_notion env store task =
        (some pid, ⟨some task.title, some task.description⟩ :: store)) ∧
    (env.create_page store task = none →
      create_task_in_notion env store task = (none, store)) := by
  have hte : _task_exists env store task = false := by
    unfold _task_exists
    rw [h]
  refine ⟨hte, ?_, ?_⟩
  · intro pid hc
    unfold create_task_in_notion
    rw [hte]
    simp [hc]
  · intro hc
    unfold create_task_in_notion
    rw [hte]
    simp [hc]

/-- Witness for C10: under an environment whose store query always raises,
a task is still created. -/
theorem c10_witness :
    _task_exists env_qerr [] task_ok = false ∧
    create_task_in_notion env_qerr [] task_ok =
      (some "p10", [⟨some task_ok.title, some task_ok.description⟩]) := by
  have h := c10_dedup_fails_open env_qerr [] task_ok "APIResponseError" rfl
  exact ⟨h.1, h.2.1 "p10" rfl⟩

/-- Membership in the processed set after a single insertion. -/
theorem mem_add_id (a b : String) (l : List String) :
    a ∈ add_id l b ↔ a = b ∨ a ∈ l := by
  unfold add_id
  by_cases h : b ∈ l
  · rw [if_pos h]
    constructor
    · exact Or.inr
    · rintro (rfl | ha)
      · exact h
      · exact ha
  · rw [if_neg h]
    exact List.mem_cons

/-- An identifier stays outside the processed set through the marking loop
when every pair carrying it as source identifier was committed with a null
result. -/
theorem not_mem_mark_processed (sid : String) :
    ∀ (pairs : List (Task × Option String)) (processed : List String),
      sid ∉ processed →
      (∀ p ∈ pairs, p.1.source_id = some sid → p.2 = none) →
      sid ∉ mark_processed processed pairs := by
  intro pairs
  induction pairs with
  | nil =>
    intro processed h _
    exact h
  | cons p ps ih =>
    intro processed h hall
    have hstep : mark_processed processed (p :: ps) =
        mark_processed
          (match p.2, p.1.source_id with
           | some _, some s => add_id processed s
           | _, _ => processed) ps := rfl
    rw [hstep]
    apply ih
    · cases hp2 : p.2 with
      | none =>
        cases p.1.source_id <;> simp [hp2] <;> exact h
      | some pid =>
        cases hsrc : p.1.source_id with
        | none =>
          simp [hp2, hsrc]
          exact h
        | some s =>
          have hne : s ≠ sid := by
            intro he
            have := hall p (List.mem_cons_self p ps) (by rw [hsrc, he])
            rw [hp2] at this
            exact Option.noConfusion this
          simp only [hp2, hsrc]
          rw [mem_add_id]
          rintro (rfl | hmem)
          · exact hne rfl
          · exact h hmem
    · intro q hq hsq
      exact hall q (List.mem_cons_of_mem p hq) hsq

/-- C2 (amended): a built Task reaching similarity at least 85 percent
(case-insensitive, maximum of the title ratio and the description ratio)
with one of the 20 most recent destination records is skipped and
reported as `None` in the commit results (a returned value, not a raised
error) and the store is unchanged; but the source message is NOT marked
processed: the pipeline marking loop inserts only identifiers of tasks
committed with a non-null result. -/
theorem c2_duplicate_skip_not_marked (env : Env) (store : List StoreRecord)
    (task : Task)
    (hq : env.query_recent 20 store = .ok (store.take 20))
    (hd : (store.take 20).any (record_similar 85 task) = true) :
    create_task_in_notion env store task = (none, store) ∧
    ∀ (processed : List String) (pairs : List (Task × Option String))
      (sid : String),
      task.source_id = some sid → sid ∉ processed →
      (∀ p ∈ pairs, p.1.source_id = some sid → p.2 = none) →
      sid ∉ mark_processed processed pairs := by
  have hte : _task_exists env store task = true := by
    unfold _task_exists
    rw [hq]
    exact hd
  constructor
  · unfold create_task_in_notion
    rw [hte]
    simp
  · intro processed pairs sid _ hnp hall
    exact not_mem_mark_processed sid pairs processed hnp hall

/-- Witness for C2: a task whose title equals a recent store record title up
to letter case is skipped with a `None` result, and its source identifier
stays outside the processed set. -/
theorem c2_witness :
    create_task_in_notion env_dup [rec_dup] (build_task env_dup msg_dup v_dup) =
      (none, [rec_dup]) ∧
    "mid-dup" ∉ mark_processed [] [(build_task env_dup msg_dup v_dup, none)] := by
  have h := c2_duplicate_skip_not_marked env_dup [rec_dup]
    (build_task env_dup msg_dup v_dup) rfl (by decide)
  refine ⟨h.1, h.2 [] [(build_task env_dup msg_dup v_dup, none)] "mid-dup"
    rfl (by simp) ?_⟩
  intro p hp _
  rw [List.mem_singleton] at hp
  rw [hp]

/-- Counterexample for C2 as stated: running the full pipeline on a message
whose extracted task duplicates a recent store record leaves the store
unchanged and reports the duplicate as `None`, yet the source message
identifier is NOT in the updated processed set, contradicting the claim
that it is marked processed. -/
theorem c2_counterexample :
    (batch_create_tasks env_dup [rec_dup]
        [build_task env_dup msg_dup v_dup]).page_ids = [none] ∧
    (process_email_to_notion_pipeline env_dup ⟨[], [rec_dup]⟩ [msg_dup] 50).processed
      = [] ∧
    (process_email_to_notion_pipeline env_dup ⟨[], [rec_dup]⟩ [msg_dup] 50).store
      = [rec_dup] := by
  decide

/-- The batch committer returns exactly one result per input task. -/
theorem batch_page_ids_length (env : Env) :
    ∀ (tasks : List Task) (store : List StoreRecord),
      (batch_create_tasks env store tasks).page_ids.length = tasks.length := by
  intro tasks
  induction tasks with
  | nil => intro store; rfl
  | cons t ts ih =>
    intro store
    simp only [batch_create_tasks, List.length_cons]
    rw [ih]

/-- The batch committer trace is one creation attempt per task, in input
order, each followed by the fixed 100 millisecond delay. -/
theorem batch_trace_eq (env : Env) :
    ∀ (tasks : List Task) (store : List StoreRecord),
      (batch_create_tasks env store tasks).trace =
        (tasks.map (fun t => [Event.attemptCreate t.title, Event.sleepMs 100])).flatten := by
  intro tasks
  induction tasks with
  | nil => intro store; rfl
  | cons t ts ih =>
    intro store
    simp only [batch_create_tasks, List.map_cons, List.flatten]
    rw [ih]
    rfl

/-- Position i of the batch results is the outcome of the creation attempt
for task i against the store state reached after the first i tasks. -/
theorem batch_page_ids_get (env : Env) :
    ∀ (tasks : List Task) (store : List StoreRecord) (i : Nat)
      (h : i < tasks.length),
      (batch_create_tasks env store tasks).page_ids[i]? =
        some (create_task_in_notion env
          ((batch_create_tasks env store (tasks.take i)).store)
          (tasks.get ⟨i, h⟩)).1 := by
  intro tasks
  induction tasks with
  | nil =>
    intro store i h
    exact absurd h (Nat.not_lt_zero i)
  | cons t ts ih =>
    intro store i h
    cases i with
    | zero =>
      simp [batch_create_tasks]
    | succ n =>
      have hn : n < ts.length := Nat.lt_of_succ_lt_succ h
      have hl : (batch_create_tasks env store (t :: ts)).page_ids[n + 1]? =
          (batch_create_tasks env (create_task_in_notion env store t).2 ts).page_ids[n]? := by
        simp only [batch_create_tasks]
        exact List.getElem?_cons_succ
      rw [hl, ih (create_task_in_notion env store t).2 n hn]
      rfl

/-- C6: the batch committer returns one optional identifier per input task
in input order; a task not created (detected duplicate, or a creation
call whose raised exception is caught) is recorded as `None` without
aborting the rest of the batch, every position being the outcome of its
own task's creation attempt; and the submissions happen strictly
sequentially in input order with the fixed 0.1 second inter-item delay,
as recorded in the trace. -/
theorem c6_batch_committer (env : Env) (store : List StoreRecord)
    (tasks : List Task) :
    (batch_create_tasks env store tasks).page_ids.length = tasks.length ∧
    (batch_create_tasks env store tasks).trace =
      (tasks.map (fun t => [Event.attemptCreate t.title, Event.sleepMs 100])).flatten ∧
    (∀ (s : List StoreRecord) (t : Task),
      (create_task_in_notion env s t).1 = none ↔
        (_task_exists env s t = true ∨ env.create_page s t = none)) ∧
    (∀ (i : Nat) (h : i < tasks.length),
      (batch_create_tasks env store tasks).page_ids[i]? =
        some (create_task_in_notion env
          ((batch_create_tasks env store (tasks.take i)).store)
          (tasks.get ⟨i, h⟩)).1) := by
  refine ⟨batch_page_ids_length env tasks store, batch_trace_eq env tasks store,
    ?_, fun i h => batch_page_ids_get env tasks store i h⟩
  intro s t
  unfold create_task_in_notion
  by_cases hte : _task_exists env s t
  · simp [hte]
  · cases hc : env.create_page s t <;> simp [hte, hc]

/-- Witness for C6: a two-task batch where the second creation call raises
yields results of length two, with the first task created and the second
recorded as `None`. -/
theorem c6_witness :
    (batch_create_tasks env_batch [] [task_ok, task_fail]).page_ids.length = 2 ∧
    (batch_create_tasks env_batch [] [task_ok, task_fail]).page_ids[1]? =
      some none := by
  have h := c6_batch_committer env_batch [] [task_ok, task_fail]
  refine ⟨h.1, ?_⟩
  have hg := h.2.2.2 1 (by decide)
  rw [hg]
  decide

/-- C5 (amended): when every inbox message identifier is already in the
processed set, a pipeline run is a strict no-op: the identifiers are
filtered out before any model call (zero classification-service calls),
no task is produced, and the state, both set and store, is returned
unchanged. This is the second-run situation exactly when the first run
marked every fetched message; a first run that left commit-failed or
duplicate-skipped messages unmarked re-classifies them on the second run,
which can create additional tasks. -/
theorem c5_second_run_noop_when_all_marked (env : Env) (st : SysState)
    (inbox : List EmailMessage) (limit : Nat)
    (h : ∀ m ∈ inbox, m.message_id ∈ st.processed) :
    process_email_to_notion_pipeline_counted env st inbox limit = (st, 0) := by
  have hf : fetch_new_emails st.processed inbox limit = [] := by
    unfold fetch_new_emails
    rw [List.filter_eq_nil_iff]
    intro m hm
    have hmem : m ∈ inbox := List.mem_reverse.mp (List.mem_of_mem_take hm)
    simp [h m hmem]
  unfold process_email_to_notion_pipeline_counted process_new_emails_counted
  rw [hf]
  rfl

/-- Witness for C5 (amended): a run over a two-message inbox whose two
identifiers are already processed returns the state unchanged with zero
classification calls. -/
theorem c5_witness :
    process_email_to_notion_pipeline_counted env_two
      ⟨["idA", "idB"], []⟩ inbox_two 50 = (⟨["idA", "idB"], []⟩, 0) :=
  c5_second_run_noop_when_all_marked env_two ⟨["idA", "idB"], []⟩ inbox_two 50
    (by decide)

/-- Counterexample for C5 as stated: with a transient creation failure in
the first run (the `bb` creation call fails until an `aa` record exists),
the second run over the unchanged inbox creates an additional task and
grows the processed set, because the failed message was not marked
processed and is re-classified and re-committed. -/
theorem c5_counterexample :
    (process_email_to_notion_pipeline env_two ⟨[], []⟩ inbox_two 50).store.length
      = 1 ∧
    "idB" ∉ (process_email_to_notion_pipeline env_two ⟨[], []⟩ inbox_two 50).processed ∧
    (process_email_to_notion_pipeline env_two
      (process_email_to_notion_pipeline env_two ⟨[], []⟩ inbox_two 50)
      inbox_two 50).store.length = 2 ∧
    "idB" ∈ (process_email_to_notion_pipeline env_two
      (process_email_to_notion_pipeline env_two ⟨[], []⟩ inbox_two 50)
      inbox_two 50).processed := by
  decide

/-- C1 as a code observation: on a five-message batch whose third message
makes the classification call raise, the run does continue with the other
four messages, but the third identifier IS inserted into the processed
set: `extract_tasks_from_email` swallows the raised error into a `None`
result and `process_new_emails` marks every `None`-result message as
processed, contrary to both the specification and the source comments at
agents/email_polling lines 404, 433 to 437 and 443. -/
theorem c1_classifier_error_marked_processed :
    "id3" ∈ (process_new_emails_counted env_err [] inbox_err 50).2.1 ∧
    "id1" ∈ (process_new_emails_counted env_err [] inbox_err 50).2.1 ∧
    "id2" ∈ (process_new_emails_counted env_err [] inbox_err 50).2.1 ∧
    "id4" ∈ (process_new_emails_counted env_err [] inbox_err 50).2.1 ∧
    "id5" ∈ (process_new_emails_counted env_err [] inbox_err 50).2.1 ∧
    (process_new_emails_counted env_err [] inbox_err 50).1 = [] := by
  decide

/-- C8 (amended): for every raw message the parser turns into a normalized
message, the identifier does not depend on the fetch-time clock value, so
it is stable across repeated fetches; and it equals the Message-ID header
value whenever that header is present. It is NOT guaranteed non-empty: a
missing header yields the empty identifier. -/
theorem c8_identifier_stability (parsedate : String → Option Nat)
    (now₁ now₂ : Nat) (raw : RawEmail) (m₁ m₂ : EmailMessage)
    (h₁ : _parse_email parsedate now₁ raw = some m₁)
    (h₂ : _parse_email parsedate now₂ raw = some m₂) :
    m₁.message_id = m₂.message_id ∧
    ∀ s, raw.message_id_header = some s → m₁.message_id = s := by
  unfold _parse_email at h₁ h₂
  by_cases hf : raw.fetch_ok = false
  · rw [if_pos hf] at h₁
    exact absurd h₁ (by simp)
  · rw [if_neg hf] at h₁ h₂
    have e₁ := Option.some.inj h₁
    have e₂ := Option.some.inj h₂
    refine ⟨by rw [← e₁, ← e₂], ?_⟩
    intro s hs
    rw [← e₁]
    simp [hs]

/-- Witness for C8 (amended): the same raw message parsed at two different
clock values yields the same identifier, the Message-ID header value. -/
theorem c8_witness :
    msg8a.message_id = msg8b.message_id ∧ msg8a.message_id = "mid-8" := by
  have h := c8_identifier_stability (fun _ => none) 0 7 raw_ok msg8a msg8b rfl rfl
  exact ⟨h.1, h.2 "mid-8" rfl⟩

/-- Counterexample for C8 as stated: a raw message without a Message-ID
header parses successfully to a normalized message whose identifier is the
empty string, refuting the claimed non-emptiness. -/
theorem c8_counterexample :
    (_parse_email (fun _ => none) 0 raw_noid).map EmailMessage.message_id =
      some "" := by
  decide

end AgentsSwarm
